import Mathlib

/-!
Verification development for the shape-from-shading tool `sfs.cc`.

The C++ source is shallowly embedded over an arbitrary linear ordered
field `K` (idealizing IEEE doubles), with the transcendental library
functions (`sqrt`, `acos`, `exp`) and the constant `M_PI` abstracted
into a record `MathOps K`, so that every definition stays computable
and can be evaluated on concrete rational inputs.

External collaborators (georeference, datum, camera model, bilinear
image sampler) are modeled as function-valued records, following the
source's usage of them.  A camera projection that throws
`PointToPixelErr` is modeled as an `Except`-valued function; the
`exit(1)` calls in the reflectance code are modeled as a distinguished
fatal outcome.
-/

/-- 3-vectors, modeling `vw::Vector3` (components of type `K`). -/
abbrev Vec3 (K : Type) := K × K × K

section Defs

variable {K : Type} [LinearOrderedField K]

/-- `dot_prod` on `vw::Vector3`. -/
def dot3 (a b : Vec3 K) : K :=
  a.1 * b.1 + a.2.1 * b.2.1 + a.2.2 * b.2.2

/-- Componentwise subtraction of `vw::Vector3`. -/
def sub3 (a b : Vec3 K) : Vec3 K :=
  (a.1 - b.1, a.2.1 - b.2.1, a.2.2 - b.2.2)

/-- Componentwise negation of `vw::Vector3`. -/
def neg3 (a : Vec3 K) : Vec3 K :=
  (-a.1, -a.2.1, -a.2.2)

/-- `cross_prod` on `vw::Vector3`. -/
def cross3 (a b : Vec3 K) : Vec3 K :=
  (a.2.1 * b.2.2 - a.2.2 * b.2.1,
   a.2.2 * b.1 - a.1 * b.2.2,
   a.1 * b.2.1 - a.2.1 * b.1)

/-- The transcendental math-library operations used by `sfs.cc`,
abstracted so the embedding is computable over any field. -/
structure MathOps (K : Type) where
  sqrt : K → K
  acos : K → K
  exp : K → K
  pi : K

/-- `vw::math::normalize`: `v / norm_2(v)` with `norm_2 v = sqrt (dot v v)`. -/
def normalize3 (ops : MathOps K) (v : Vec3 K) : Vec3 K :=
  let n := ops.sqrt (dot3 v v)
  (v.1 / n, v.2.1 / n, v.2.2 / n)

/-- Enum value `NO_REFL` from `sfs.cc`. -/
def NO_REFL : Nat := 0
/-- Enum value `LAMBERT` from `sfs.cc`. -/
def LAMBERT : Nat := 1
/-- Enum value `LUNAR_LAMBERT` from `sfs.cc`. -/
def LUNAR_LAMBERT : Nat := 2

/-- The fields of `GlobalParams` that the optimization core reads. -/
structure GlobalParams (K : Type) where
  reflectanceType : Nat
  phaseCoeffC1 : K
  phaseCoeffC2 : K

/-- The fields of `ModelParams` that the optimization core reads. -/
structure ModelParams (K : Type) where
  sunPosition : Vec3 K
  cameraPosition : Vec3 K

/-- `computeLambertianReflectanceFromNormal` from `sfs.cc`:
the dot product of the normalized sun direction with the normal.
No unit-normal check and no clamping appear in the source. -/
def computeLambertianReflectanceFromNormal (ops : MathOps K)
    (sunPos xyz normal : Vec3 K) : K :=
  let sunDirection := normalize3 ops (sub3 sunPos xyz)
  sunDirection.1 * normal.1 + sunDirection.2.1 * normal.2.1 +
    sunDirection.2.2 * normal.2.2

/-- `computeLunarLambertianReflectanceFromNormal` from `sfs.cc`.
`none` models the `exit(1)` taken when the unit-normal check fails.
The `alpha` output parameter is dead at every call site and is omitted.
Numeric literals of the source are written as exact rationals:
`1.0e-4 = 1/10000`, `tol = 0.3 = 3/10`, `A = -0.019 = -(19/1000)`,
`B = 0.000242 = 242/1000000`, `C = -0.00000146 = -(146/100000000)`. -/
def computeLunarLambertianReflectanceFromNormal (ops : MathOps K)
    (sunPos viewPos xyz normal : Vec3 K) (phaseCoeffC1 phaseCoeffC2 : K) :
    Option K :=
  let len := dot3 normal normal
  if (1 : K) / 10000 < |len - 1| then
    none
  else
    let sunDirection := normalize3 ops (sub3 sunPos xyz)
    let mu_0 := dot3 sunDirection normal
    let tol : K := 3 / 10
    if mu_0 < tol then
      some 0
    else
      let viewDirection := normalize3 ops (sub3 viewPos xyz)
      let mu := dot3 viewDirection normal
      let cos_alpha := dot3 sunDirection viewDirection
      let alpha := ops.acos cos_alpha
      let deg_alpha := alpha * 180 / ops.pi
      let A : K := -(19 / 1000)
      let B : K := 242 / 1000000
      let C : K := -(146 / 100000000)
      let L := 1 + A * deg_alpha + B * deg_alpha * deg_alpha +
        C * deg_alpha * deg_alpha * deg_alpha
      if mu_0 < 0 then
        some 0
      else
        let mu' := if mu < 0 then 0 else mu
        if mu_0 + mu' = 0 then
          some 0
        else
          let reflectance := 2 * L * mu_0 / (mu_0 + mu') + (1 - L) * mu_0
          if reflectance ≤ 0 then
            some 0
          else
            some (reflectance * (ops.exp (-phaseCoeffC1 * alpha) + phaseCoeffC2))

/-- `ComputeReflectance` from `sfs.cc`: dispatch on the reflectance model
kind; the switch default returns constant reflectance 1.  `none` models
the process abort inside the Lunar-Lambertian branch. -/
def ComputeReflectance (ops : MathOps K) (normal xyz : Vec3 K)
    (input_img_params : ModelParams K) (global_params : GlobalParams K) :
    Option K :=
  if global_params.reflectanceType = LUNAR_LAMBERT then
    computeLunarLambertianReflectanceFromNormal ops
      input_img_params.sunPosition input_img_params.cameraPosition
      xyz normal global_params.phaseCoeffC1 global_params.phaseCoeffC2
  else if global_params.reflectanceType = LAMBERT then
    some (computeLambertianReflectanceFromNormal ops
      input_img_params.sunPosition xyz normal)
  else
    some 1

/-- The operations of `vw::cartography::GeoReference` (with its datum)
used by the core: pixel-to-lonlat at integer grid coordinates, and
geodetic-to-cartesian conversion.  External collaborator, modeled as
abstract functions. -/
structure GeoReference (K : Type) where
  pixel_to_lonlat : Nat → Nat → K × K
  geodetic_to_cartesian : K → K → K → Vec3 K

/-- The bilinearly-interpolating image view `BilinearInterpT`:
its pixel dimensions and its (external) fractional-coordinate sampler. -/
structure BilinearInterpT (K : Type) where
  cols : Nat
  rows : Nat
  sample : K → K → K

/-- A camera model: `point_to_pixel` may throw `PointToPixelErr`,
modeled as the `Except.error` case. -/
abbrev CameraModel (K : Type) := Vec3 K → Except Unit (K × K)

/-- Outcome of one `computeReflectanceAndIntensity` call, together with
the values left in the two output parameters `reflectance`/`intensity`:
`ok`/`fail` are the `return true` / `return false` exits; `exn` is an
uncaught `PointToPixelErr` escaping from `camera->point_to_pixel`
(the reflectance output has already been written at that point);
`fatal` is the `exit(1)` inside the reflectance computation. -/
inductive CRIOutcome (K : Type) where
  | ok (reflectance intensity : K)
  | fail (reflectance intensity : K)
  | exn (reflectance : K)
  | fatal
  deriving DecidableEq

/-- The world-space point of one grid sample in
`computeReflectanceAndIntensity`: pixel-to-lonlat, paired with the
height, then converted to cartesian through the datum. -/
def criBase (geo : GeoReference K) (col row : Nat) (h : K) : Vec3 K :=
  let lonlat := geo.pixel_to_lonlat col row
  geo.geodetic_to_cartesian lonlat.1 lonlat.2 h

/-- The surface normal `-normalize(cross_prod(right - base, top - base))`
computed by `computeReflectanceAndIntensity`. -/
def criNormal (ops : MathOps K) (geo : GeoReference K) (col row : Nat)
    (center_h right_h top_h : K) : Vec3 K :=
  let base := criBase geo col row center_h
  let dx := sub3 (criBase geo (col + 1) row right_h) base
  let dy := sub3 (criBase geo col (row + 1) top_h) base
  neg3 (normalize3 ops (cross3 dx dy))

/-- `computeReflectanceAndIntensity` (per-cell overload) from `sfs.cc`.
The process-wide error counter `g_errorCount` is passed and returned
explicitly.  The no-data checks follow the source exactly: each fires
only while `g_errorCount == 0`, and increments the counter when it
fires.  The unused parameter `A` of the source is kept. -/
def computeReflectanceAndIntensity (ops : MathOps K)
    (center_h right_h top_h : K) (col row : Nat)
    (demCols demRows : Nat) (geo : GeoReference K) (nodata_val : K)
    (A : K × K) (model_params : ModelParams K)
    (global_params : GlobalParams K) (image : BilinearInterpT K)
    (camera : CameraModel K) (g_errorCount : Nat) :
    CRIOutcome K × Nat :=
  if demCols - 1 ≤ col ∨ demRows - 1 ≤ row then
    (.fail 0 0, g_errorCount)
  else if center_h = nodata_val ∧ g_errorCount = 0 then
    (.fail 0 0, g_errorCount + 1)
  else if right_h = nodata_val ∧ g_errorCount = 0 then
    (.fail 0 0, g_errorCount + 1)
  else if top_h = nodata_val ∧ g_errorCount = 0 then
    (.fail 0 0, g_errorCount + 1)
  else
    let base := criBase geo col row center_h
    let normal := criNormal ops geo col row center_h right_h top_h
    match ComputeReflectance ops normal base model_params global_params with
    | none => (.fatal, g_errorCount)
    | some reflectance =>
      match camera base with
      | .error _ => (.exn reflectance, g_errorCount)
      | .ok pix =>
        if pix.1 < 0 ∨ (image.cols : K) - 1 ≤ pix.1 then
          (.fail reflectance 0, g_errorCount)
        else if pix.2 < 0 ∨ (image.rows : K) - 1 ≤ pix.2 then
          (.fail reflectance 0, g_errorCount)
        else
          (.ok reflectance (image.sample pix.1 pix.2), g_errorCount)

/-- The per-instance data of the `IntensityError` cost functor
(the DEM alias is represented by its dimensions, which are all the
per-cell computation reads from it). -/
structure IntensityError (K : Type) where
  m_col : Nat
  m_row : Nat
  demCols : Nat
  demRows : Nat
  m_geo : GeoReference K
  m_global_params : GlobalParams K
  m_model_params : ModelParams K
  m_image : BilinearInterpT K
  m_camera : CameraModel K
  m_nodata_val : K

/-- `IntensityError::operator()`: the residual defaults to the sentinel
`1e20`; on success it becomes `intensity - A[0]*reflectance - A[1]`;
a `PointToPixelErr` escaping `computeReflectanceAndIntensity` is caught
and reported as failure; the `exit(1)` outcome never returns (`none`).
Result: `(some (success, residual), new error count)` for the returning
paths. -/
def IntensityError.eval (self : IntensityError K) (ops : MathOps K)
    (A : K × K)
    (_tl top _tr _left center right _bl _bottom _br : K)
    (g_errorCount : Nat) : Option (Bool × K) × Nat :=
  let r := computeReflectanceAndIntensity ops center right top
    self.m_col self.m_row self.demCols self.demRows self.m_geo
    self.m_nodata_val A self.m_model_params self.m_global_params
    self.m_image self.m_camera g_errorCount
  match r.1 with
  | .ok reflectance intensity =>
      (some (true, intensity - A.1 * reflectance - A.2), r.2)
  | .fail _ _ => (some (false, (10 : K) ^ 20), r.2)
  | .exn _ => (some (false, (10 : K) ^ 20), r.2)
  | .fatal => (none, r.2)

/-- The per-instance data of the `SmoothnessError` cost functor. -/
structure SmoothnessError (K : Type) where
  m_smoothness_weight : K
  m_grid_size : K

/-- `SmoothnessError::operator()`: the four second-order
finite-difference residuals, each multiplied by the smoothness weight
by the trailing loop.  The `catch` branch of the source is dead (the
body calls nothing that can throw), so the functor always returns
`true` with these residuals. -/
def SmoothnessError.eval (self : SmoothnessError K)
    (tl top tr left center right bl bottom br : K) :
    Bool × (K × K × K × K) :=
  let gs := self.m_grid_size * self.m_grid_size
  let r0 := (left + right - 2 * center) / gs
  let r1 := (tr + bl - tl - br) / 4 / gs
  let r2 := r1
  let r3 := (top + bottom - 2 * center) / gs
  (true, (r0 * self.m_smoothness_weight, r1 * self.m_smoothness_weight,
          r2 * self.m_smoothness_weight, r3 * self.m_smoothness_weight))

/-- State of the full-grid `computeReflectanceAndIntensity` overload:
the two output images (indexed by grid cell) and the running value of
the process-wide error counter.  `set_size` default-initializes the
images to zero. -/
abbrev GridState (K : Type) := ((Nat × Nat) → K) × ((Nat × Nat) → K) × Nat

/-- The cells visited by the full-grid overload, in source order
(outer loop over columns `0 ≤ col < cols-1`, inner loop over rows). -/
def gridCellList (demCols demRows : Nat) : List (Nat × Nat) :=
  (List.range (demCols - 1)).flatMap fun col =>
    (List.range (demRows - 1)).map fun row => (col, row)

/-- One iteration of the full-grid overload: call the per-cell function
on heights `dem(col,row)`, `dem(col+1,row)`, `dem(col,row+1)` and store
both outputs at `(col,row)` whether the call succeeded or failed.  An
escaping exception or a process abort ends the pass (`Except.error`);
the partially-written images are then never consumed, so they are not
recorded. -/
def gridStep (ops : MathOps K) (dem : Nat → Nat → K)
    (demCols demRows : Nat) (geo : GeoReference K) (nodata_val : K)
    (A : K × K) (model_params : ModelParams K)
    (global_params : GlobalParams K) (image : BilinearInterpT K)
    (camera : CameraModel K) (st : GridState K) (cell : Nat × Nat) :
    Except Unit (GridState K) :=
  let r := computeReflectanceAndIntensity ops
    (dem cell.1 cell.2) (dem (cell.1 + 1) cell.2) (dem cell.1 (cell.2 + 1))
    cell.1 cell.2 demCols demRows geo nodata_val A model_params
    global_params image camera st.2.2
  match r.1 with
  | .ok reflectance intensity =>
      .ok (Function.update st.1 cell reflectance,
           Function.update st.2.1 cell intensity, r.2)
  | .fail reflectance intensity =>
      .ok (Function.update st.1 cell reflectance,
           Function.update st.2.1 cell intensity, r.2)
  | .exn _ => .error ()
  | .fatal => .error ()

/-- `computeReflectanceAndIntensity` (full-grid overload) from `sfs.cc`:
iterate the per-cell computation over all cells of
`[0, cols-1) × [0, rows-1)`, threading the error counter. -/
def computeReflectanceAndIntensityGrid (ops : MathOps K)
    (dem : Nat → Nat → K) (demCols demRows : Nat) (geo : GeoReference K)
    (nodata_val : K) (A : K × K) (model_params : ModelParams K)
    (global_params : GlobalParams K) (image : BilinearInterpT K)
    (camera : CameraModel K) (g_errorCount : Nat) :
    Except Unit (GridState K) :=
  (gridCellList demCols demRows).foldlM
    (gridStep ops dem demCols demRows geo nodata_val A model_params
      global_params image camera)
    ((fun _ => 0), (fun _ => 0), g_errorCount)

/-- An image as consumed by `compute_image_stats`: pixel values with a
validity mask (`none` = invalid pixel, skipped by the loop).  The
`ImageView<double>` instantiations of the source have every pixel
valid. -/
structure StatsImage (K : Type) where
  cols : Nat
  rows : Nat
  pix : Nat → Nat → Option K

/-- The pixels of a `StatsImage` in the iteration order of
`compute_image_stats` (outer loop over columns). -/
def pixelSeq (I : StatsImage K) : List (Option K) :=
  (List.range I.cols).flatMap fun col =>
    (List.range I.rows).map fun row => I.pix col row

/-- The accumulation loop of `compute_image_stats`: fold `(sum, sum2,
count)` over the pixels, skipping invalid ones. -/
def statsFold (l : List (Option K)) (acc : K × K × K) : K × K × K :=
  l.foldl
    (fun a p =>
      match p with
      | none => a
      | some val => (a.1 + val, a.2.1 + val * val, a.2.2 + 1))
    acc

/-- `compute_image_stats` from `sfs.cc`: mean and standard deviation
over the valid pixels; both stay 0 when no pixel is valid. -/
def compute_image_stats (ops : MathOps K) (I : StatsImage K) : K × K :=
  let acc := statsFold (pixelSeq I) (0, 0, 0)
  if 0 < acc.2.2 then
    let mean := acc.1 / acc.2.2
    (mean, ops.sqrt (acc.2.1 / acc.2.2 - mean * mean))
  else
    (0, 0)

/-- The one-time affine parameter estimation of `main` (lines around
`A[0] = imgstdev/refstdev`): statistics of the intensity and
reflectance images, then `A[0] = imgstdev / refstdev` and
`A[1] = imgmean - A[0] * refmean`.  The division is unguarded. -/
def estimateAffineParams (ops : MathOps K)
    (reflectance intensity : StatsImage K) : K × K :=
  let imgstats := compute_image_stats ops intensity
  let refstats := compute_image_stats ops reflectance
  let A0 := imgstats.2 / refstats.2
  (A0, imgstats.1 - A0 * refstats.1)

/-- The parameter blocks pinned by one interior cell `(col, row)` of
the assembly loop in `main`: each `SetParameterBlockConstant` call of
the four boundary branches contributes its cell. -/
def boundaryPins (ncols nrows col row : Nat) : Finset (Nat × Nat) :=
  (if col = 1 then
    {(col - 1, row - 1), (col - 1, row), (col - 1, row + 1)} else ∅) ∪
  (if row = 1 then
    {(col - 1, row - 1), (col, row - 1), (col + 1, row - 1)} else ∅) ∪
  (if col = ncols - 2 then
    {(col + 1, row - 1), (col + 1, row), (col + 1, row + 1)} else ∅) ∪
  (if row = nrows - 2 then
    {(col - 1, row + 1), (col, row + 1), (col + 1, row + 1)} else ∅)

/-- All DEM cells marked immutable by the assembly loop of `main`,
which runs over every interior cell `1 ≤ col ≤ ncols-2`,
`1 ≤ row ≤ nrows-2`. -/
def pinnedCells (ncols nrows : Nat) : Finset (Nat × Nat) :=
  (Finset.Icc 1 (ncols - 2) ×ˢ Finset.Icc 1 (nrows - 2)).biUnion
    fun p => boundaryPins ncols nrows p.1 p.2

end Defs

section Helpers

variable {K : Type} [LinearOrderedField K]

/-- The source's clamp `if (mu < 0.0) mu = 0.0` is `max 0 mu`. -/
theorem clamp_eq_max (mu : K) : (if mu < 0 then (0 : K) else mu) = max 0 mu := by
  split_ifs with h
  · exact (max_eq_left h.le).symm
  · exact (max_eq_right (not_lt.mp h)).symm

/-- Test instantiation of the abstract math operations over `ℚ`:
`sqrt` is the identity, `acos` constantly 0, `exp` constantly 1,
`pi = 180` (making the degree conversion the identity). -/
def testOps : MathOps ℚ := ⟨id, fun _ => 0, fun _ => 1, 180⟩

/-- Test georeference over `ℚ`: lon/lat equals the pixel coordinate and
the datum embeds (lon, lat, height) directly as cartesian. -/
def testGeo : GeoReference ℚ := ⟨fun c r => ((c : ℚ), (r : ℚ)), fun lon lat h => (lon, lat, h)⟩

/-- Test per-image parameters over `ℚ`. -/
def testMp : ModelParams ℚ := ⟨(0, 0, 2), (0, 0, 2)⟩

/-- Test global parameters selecting the no-reflectance model. -/
def testGpNoRefl : GlobalParams ℚ := ⟨NO_REFL, 0, 0⟩

/-- Test 4x4 image whose sampler returns `1/2` everywhere. -/
def testImage : BilinearInterpT ℚ := ⟨4, 4, fun _ _ => 1 / 2⟩

/-- Test camera projecting every point to pixel `(1, 1)`. -/
def testCamera : CameraModel ℚ := fun _ => .ok (1, 1)

end Helpers

section Claims

variable {K : Type} [LinearOrderedField K]

/-- C6: the Smoothness Residual's four components are
`weight*(left + right - 2*center)/gs2`,
`weight*(tr + bl - tl - br)/(4*gs2)`, an exact copy of the second
component, and `weight*(top + bottom - 2*center)/gs2` with
`gs2 = gridSize^2`; and all four components vanish on any affine
height field `h(x, y) = a + b*x + e*y` over the 3x3 neighborhood
(which subsumes the all-equal and single-axis-ramp cases). -/
theorem C6_smoothness_residual (w g : K) (hg : 0 < g)
    (tl top tr left center right bl bottom br : K) :
    SmoothnessError.eval ⟨w, g⟩ tl top tr left center right bl bottom br =
      (true, (w * ((left + right - 2 * center) / (g * g)),
              w * ((tr + bl - tl - br) / (4 * (g * g))),
              w * ((tr + bl - tl - br) / (4 * (g * g))),
              w * ((top + bottom - 2 * center) / (g * g)))) ∧
    ∀ a b e : K,
      SmoothnessError.eval ⟨w, g⟩ (a - b + e) (a + e) (a + b + e)
        (a - b) a (a + b) (a - b - e) (a - e) (a + b - e) =
        (true, (0, 0, 0, 0)) := by
  constructor
  · simp only [SmoothnessError.eval, Prod.mk.injEq, true_and]
    refine ⟨?_, ?_, ?_, ?_⟩ <;> ring
  · intro a b e
    simp only [SmoothnessError.eval, Prod.mk.injEq, true_and]
    refine ⟨?_, ?_, ?_, ?_⟩ <;> ring

/-- C6 witness: the theorem applied at weight 2, grid size 1 and the
neighborhood heights 1..9. -/
theorem C6_witness :
    (0 : ℚ) < 1 ∧
    (SmoothnessError.eval ⟨2, 1⟩ (1 : ℚ) 2 3 4 5 6 7 8 9 =
      (true, (2 * ((4 + 6 - 2 * 5) / (1 * 1)),
              2 * ((3 + 7 - 1 - 9) / (4 * (1 * 1))),
              2 * ((3 + 7 - 1 - 9) / (4 * (1 * 1))),
              2 * ((2 + 8 - 2 * 5) / (1 * 1)))) ∧
    ∀ a b e : ℚ,
      SmoothnessError.eval ⟨2, 1⟩ (a - b + e) (a + e) (a + b + e)
        (a - b) a (a + b) (a - b - e) (a - e) (a + b - e) =
        (true, (0, 0, 0, 0))) :=
  ⟨by norm_num, C6_smoothness_residual 2 1 (by norm_num) 1 2 3 4 5 6 7 8 9⟩

/-- C3: whenever `mu0 = dot(normalize(sunPos - xyz), normal) < 0.3`
(and the unit-normal precondition holds, so the fatal check does not
abort first), the Lunar-Lambertian reflectance is exactly 0, for every
viewer position and both phase coefficients. -/
theorem C3_below_tolerance_zero (ops : MathOps K)
    (sunPos viewPos xyz normal : Vec3 K) (c1 c2 : K)
    (hunit : |dot3 normal normal - 1| ≤ 1 / 10000)
    (hmu0 : dot3 (normalize3 ops (sub3 sunPos xyz)) normal < 3 / 10) :
    computeLunarLambertianReflectanceFromNormal ops sunPos viewPos xyz
      normal c1 c2 = some 0 := by
  simp only [computeLunarLambertianReflectanceFromNormal]
  rw [if_neg (not_lt.mpr hunit), if_pos hmu0]

/-- C3 witness: the theorem applied with the sun behind the surface
(`mu0 = -1`). -/
theorem C3_witness :
    |dot3 ((0, 0, 1) : Vec3 ℚ) (0, 0, 1) - 1| ≤ 1 / 10000 ∧
    dot3 (normalize3 testOps (sub3 (0, 0, -1) (0, 0, 0))) ((0, 0, 1) : Vec3 ℚ) < 3 / 10 ∧
    computeLunarLambertianReflectanceFromNormal testOps (0, 0, -1) (5, 7, 9)
      (0, 0, 0) (0, 0, 1) 11 13 = some 0 :=
  ⟨by norm_num [dot3],
   by norm_num [dot3, normalize3, sub3, testOps],
   C3_below_tolerance_zero testOps (0, 0, -1) (5, 7, 9) (0, 0, 0) (0, 0, 1) 11 13
     (by norm_num [dot3])
     (by norm_num [dot3, normalize3, sub3, testOps])⟩

/-- C2: for a unit normal (within the source's `1e-4` tolerance on
`dot(n,n)`) with `mu0 >= 0.3`, and a positive phase-correction factor
`exp(-c1*alpha) + c2` (always true for the program's positive
coefficients), the Lunar-Lambertian reflectance equals
`(2*L*mu0/(mu0+mu') + (1-L)*mu0) * (exp(-c1*alpha) + c2)` clamped from
below at 0 (the clamp only bites when the base term is non-positive),
where `mu'` is `mu` clamped to `>= 0`, `alpha = acos(dot(sunDir,
viewDir))` and `L` is the McEwen cubic in `alpha` in degrees. -/
theorem C2_lunar_lambertian_formula (ops : MathOps K)
    (sunPos viewPos xyz normal : Vec3 K) (c1 c2 : K)
    (hunit : |dot3 normal normal - 1| ≤ 1 / 10000)
    (hmu0 : (3 : K) / 10 ≤ dot3 (normalize3 ops (sub3 sunPos xyz)) normal)
    (hfac : 0 < ops.exp (-c1 * ops.acos (dot3 (normalize3 ops (sub3 sunPos xyz))
      (normalize3 ops (sub3 viewPos xyz)))) + c2) :
    computeLunarLambertianReflectanceFromNormal ops sunPos viewPos xyz
      normal c1 c2 =
    some (max 0
      (let sunDirection := normalize3 ops (sub3 sunPos xyz)
       let mu_0 := dot3 sunDirection normal
       let viewDirection := normalize3 ops (sub3 viewPos xyz)
       let mu' := max 0 (dot3 viewDirection normal)
       let alpha := ops.acos (dot3 sunDirection viewDirection)
       let deg_alpha := alpha * 180 / ops.pi
       let L := 1 + -(19 / 1000) * deg_alpha + 242 / 1000000 * deg_alpha * deg_alpha +
         -(146 / 100000000) * deg_alpha * deg_alpha * deg_alpha
       (2 * L * mu_0 / (mu_0 + mu') + (1 - L) * mu_0) *
         (ops.exp (-c1 * alpha) + c2))) := by
  have h03 : (0 : K) < 3 / 10 := by norm_num
  have hpos : (0 : K) < dot3 (normalize3 ops (sub3 sunPos xyz)) normal :=
    lt_of_lt_of_le h03 hmu0
  simp only [computeLunarLambertianReflectanceFromNormal, clamp_eq_max]
  rw [if_neg (not_lt.mpr hunit), if_neg (not_lt.mpr hmu0),
    if_neg (not_lt.mpr hpos.le),
    if_neg (ne_of_gt (add_pos_of_pos_of_nonneg hpos (le_max_left 0 _)))]
  split_ifs with hr
  · rw [max_eq_left (mul_nonpos_iff.mpr (Or.inr ⟨hr, hfac.le⟩))]
  · push_neg at hr
    rw [max_eq_right (mul_pos hr hfac).le]

/-- C2 witness: the theorem applied with the sun at zenith
(`mu0 = 1`), a viewer along the normal, and zero phase coefficients. -/
theorem C2_witness :
    |dot3 ((0, 0, 1) : Vec3 ℚ) (0, 0, 1) - 1| ≤ 1 / 10000 ∧
    (3 : ℚ) / 10 ≤ dot3 (normalize3 testOps (sub3 (0, 0, 1) (0, 0, 0))) (0, 0, 1) ∧
    0 < testOps.exp (-0 * testOps.acos (dot3 (normalize3 testOps (sub3 (0, 0, 1) (0, 0, 0)))
      (normalize3 testOps (sub3 (0, 0, 2) (0, 0, 0))))) + 0 ∧
    computeLunarLambertianReflectanceFromNormal testOps (0, 0, 1) (0, 0, 2)
      (0, 0, 0) (0, 0, 1) 0 0 =
    some (max 0
      (let sunDirection := normalize3 testOps (sub3 (0, 0, 1) (0, 0, 0))
       let mu_0 := dot3 sunDirection ((0, 0, 1) : Vec3 ℚ)
       let viewDirection := normalize3 testOps (sub3 (0, 0, 2) (0, 0, 0))
       let mu' := max 0 (dot3 viewDirection (0, 0, 1))
       let alpha := testOps.acos (dot3 sunDirection viewDirection)
       let deg_alpha := alpha * 180 / testOps.pi
       let L := 1 + -(19 / 1000) * deg_alpha + 242 / 1000000 * deg_alpha * deg_alpha +
         -(146 / 100000000) * deg_alpha * deg_alpha * deg_alpha
       (2 * L * mu_0 / (mu_0 + mu') + (1 - L) * mu_0) *
         (testOps.exp (-0 * alpha) + 0))) :=
  ⟨by norm_num [dot3],
   by norm_num [dot3, normalize3, sub3, testOps],
   by norm_num [testOps],
   C2_lunar_lambertian_formula testOps (0, 0, 1) (0, 0, 2) (0, 0, 0) (0, 0, 1) 0 0
     (by norm_num [dot3])
     (by norm_num [dot3, normalize3, sub3, testOps])
     (by norm_num [testOps])⟩

/-- C4 counterexample: under the Lambertian model variant, a normal
whose squared magnitude is 25 (far outside the 1e-4 tolerance) does
not fail fatally — `ComputeReflectance` returns a value. -/
theorem C4_counterexample :
    (1 : ℚ) / 10000 < |dot3 ((0, 0, 5) : Vec3 ℚ) (0, 0, 5) - 1| ∧
    ComputeReflectance testOps (0, 0, 5) (0, 0, 0)
      ⟨(0, 0, 2), (0, 0, 2)⟩ ⟨LAMBERT, 0, 0⟩ ≠ none := by
  constructor
  · norm_num [dot3]
  · have h : ComputeReflectance testOps ((0, 0, 5) : Vec3 ℚ) (0, 0, 0)
        ⟨(0, 0, 2), (0, 0, 2)⟩ ⟨LAMBERT, 0, 0⟩ = some (5 / 2) := by
      norm_num [ComputeReflectance, LAMBERT, LUNAR_LAMBERT,
        computeLambertianReflectanceFromNormal, normalize3, sub3, dot3, testOps]
    rw [h]
    simp

/-- C4 (amended): only the Lunar-Lambertian variant checks the normal,
and the quantity it tests against the 1e-4 tolerance is the squared
magnitude `dot(normal, normal)`: under that variant the computation
fails fatally iff `|dot(normal,normal) - 1| > 1e-4`; the Lambertian and
no-model variants never fail regardless of the normal. -/
theorem C4_unit_normal_check (ops : MathOps K) (xyz normal : Vec3 K)
    (mp : ModelParams K) (gp : GlobalParams K) :
    (gp.reflectanceType = LUNAR_LAMBERT →
      (ComputeReflectance ops normal xyz mp gp = none ↔
        (1 : K) / 10000 < |dot3 normal normal - 1|)) ∧
    (gp.reflectanceType ≠ LUNAR_LAMBERT →
      ∃ v, ComputeReflectance ops normal xyz mp gp = some v) := by
  constructor
  · intro ht
    simp only [ComputeReflectance, if_pos ht,
      computeLunarLambertianReflectanceFromNormal]
    constructor
    · intro hn
      by_contra hc
      rw [if_neg hc] at hn
      revert hn
      split_ifs <;> simp
    · intro hc
      rw [if_pos hc]
  · intro ht
    simp only [ComputeReflectance, if_neg ht]
    split_ifs with h2
    · exact ⟨_, rfl⟩
    · exact ⟨1, rfl⟩

/-- C4 witness: the theorem applied under the Lunar-Lambertian variant,
where the fatal-failure condition is exactly the squared-magnitude
tolerance test. -/
theorem C4_witness :
    ((⟨LUNAR_LAMBERT, 0, 0⟩ : GlobalParams ℚ).reflectanceType = LUNAR_LAMBERT) ∧
    (ComputeReflectance testOps (0, 0, 3) (0, 0, 0) ⟨(0, 0, 2), (0, 0, 2)⟩
        (⟨LUNAR_LAMBERT, 0, 0⟩ : GlobalParams ℚ) = none ↔
      (1 : ℚ) / 10000 < |dot3 ((0, 0, 3) : Vec3 ℚ) (0, 0, 3) - 1|) :=
  ⟨rfl,
   (C4_unit_normal_check testOps (0, 0, 0) (0, 0, 3) ⟨(0, 0, 2), (0, 0, 2)⟩
     ⟨LUNAR_LAMBERT, 0, 0⟩).1 rfl⟩

/-- C5: the Intensity Residual functor's single residual component
equals `intensity - A0*reflectance - A1` exactly when the per-cell
computation succeeds; on a failing computation and on a caught camera
exception the residual is the sentinel `1e20` and the functor reports
failure; no exception propagates (each of those paths returns a
value). -/
theorem C5_intensity_residual (self : IntensityError K) (ops : MathOps K)
    (A : K × K) (tl top tr left center right bl bottom br : K)
    (g_errorCount : Nat) :
    (∀ refl intens n,
      computeReflectanceAndIntensity ops center right top self.m_col
        self.m_row self.demCols self.demRows self.m_geo self.m_nodata_val
        A self.m_model_params self.m_global_params self.m_image
        self.m_camera g_errorCount = (.ok refl intens, n) →
      self.eval ops A tl top tr left center right bl bottom br
        g_errorCount = (some (true, intens - A.1 * refl - A.2), n)) ∧
    (∀ refl intens n,
      computeReflectanceAndIntensity ops center right top self.m_col
        self.m_row self.demCols self.demRows self.m_geo self.m_nodata_val
        A self.m_model_params self.m_global_params self.m_image
        self.m_camera g_errorCount = (.fail refl intens, n) →
      self.eval ops A tl top tr left center right bl bottom br
        g_errorCount = (some (false, (10 : K) ^ 20), n)) ∧
    (∀ refl n,
      computeReflectanceAndIntensity ops center right top self.m_col
        self.m_row self.demCols self.demRows self.m_geo self.m_nodata_val
        A self.m_model_params self.m_global_params self.m_image
        self.m_camera g_errorCount = (.exn refl, n) →
      self.eval ops A tl top tr left center right bl bottom br
        g_errorCount = (some (false, (10 : K) ^ 20), n)) := by
  refine ⟨fun refl intens n h => ?_, fun refl intens n h => ?_,
    fun refl n h => ?_⟩ <;>
    simp [IntensityError.eval, h]

/-- C5 witness: the theorem's success conjunct applied on a concrete
evaluation under the no-reflectance model. -/
theorem C5_witness :
    computeReflectanceAndIntensity testOps 1000 1000 1000 0 0 4 4 testGeo
      (-32768) (1, 0) testMp testGpNoRefl testImage testCamera 0 =
      (.ok 1 (1 / 2), 0) ∧
    IntensityError.eval
      ⟨0, 0, 4, 4, testGeo, testGpNoRefl, testMp, testImage, testCamera, -32768⟩
      testOps (1, 0) 7 1000 7 7 1000 1000 7 7 7 0 =
      (some (true, 1 / 2 - 1 * 1 - 0), 0) := by
  have h : computeReflectanceAndIntensity testOps (1000 : ℚ) 1000 1000 0 0 4 4
      testGeo (-32768) (1, 0) testMp testGpNoRefl testImage testCamera 0 =
      (.ok 1 (1 / 2), 0) := by
    norm_num [computeReflectanceAndIntensity, criBase, criNormal,
      ComputeReflectance, NO_REFL, LUNAR_LAMBERT, LAMBERT, normalize3, sub3, neg3,
      cross3, dot3, testOps, testGeo, testMp, testGpNoRefl, testImage,
      testCamera]
  exact ⟨h,
    (C5_intensity_residual
      ⟨0, 0, 4, 4, testGeo, testGpNoRefl, testMp, testImage, testCamera, -32768⟩
      testOps (1, 0) 7 1000 7 7 1000 1000 7 7 7 0).1 1 (1 / 2) 0 h⟩

/-- C1: demonstration, against the claim, of the source's no-data
handling.  The guard `h == nodata_val && g_errorCount == 0` makes the
no-data condition fail the sample (and bump the counter) only on the
first occurrence: once the counter is positive, a sample whose center
height is the no-data value does not fail — it computes a normal from
the no-data height and returns success, contradicting both the claim
and the code's own error message. -/
theorem C1_nodata_second_occurrence :
    computeReflectanceAndIntensity testOps (-32768) 1000 1000 0 0 4 4 testGeo
      (-32768) (1, 0) testMp testGpNoRefl testImage testCamera 0 =
      (.fail 0 0, 1) ∧
    computeReflectanceAndIntensity testOps (-32768) 1000 1000 0 0 4 4 testGeo
      (-32768) (1, 0) testMp testGpNoRefl testImage testCamera 1 =
      (.ok 1 (1 / 2), 1) := by
  constructor
  · norm_num [computeReflectanceAndIntensity]
  · norm_num [computeReflectanceAndIntensity, criBase, criNormal,
      ComputeReflectance, NO_REFL, LUNAR_LAMBERT, LAMBERT, normalize3, sub3, neg3,
      cross3, dot3, testOps, testGeo, testMp, testGpNoRefl, testImage,
      testCamera]

/-- C8 counterexample: with a 4x4 image, the fractional projected
pixel `(5/2, 1)` lies outside the claimed acceptance rectangle
`[0, cols-2] x [0, rows-2] = [0, 2] x [0, 2]`, yet the sample
succeeds: the code only rejects coordinates outside
`[0, cols-1) x [0, rows-1)`. -/
theorem C8_counterexample :
    computeReflectanceAndIntensity testOps 1000 1000 1000 0 0 4 4 testGeo
      (-32768) (1, 0) testMp testGpNoRefl testImage
      (fun _ => .ok (5 / 2, 1)) 0 =
      (.ok 1 (1 / 2), 0) ∧
    ¬((5 : ℚ) / 2 ≤ (4 : ℚ) - 2) := by
  constructor
  · norm_num [computeReflectanceAndIntensity, criBase, criNormal,
      ComputeReflectance, NO_REFL, LUNAR_LAMBERT, LAMBERT, normalize3, sub3,
      neg3, cross3, dot3, testOps, testGeo, testMp, testGpNoRefl, testImage]
  · norm_num

/-- C8 (amended): once the per-cell computation reaches the projection
stage (indices inside the grid, no no-data height, a defined
reflectance, and a projection that does not throw), the sample fails
iff the fractional pixel coordinate falls outside
`[0, cols-1) x [0, rows-1)`; inside that rectangle the sample succeeds
with the bilinear sampler's value at the fractional coordinate. -/
theorem C8_pixel_bounds (ops : MathOps K) (geo : GeoReference K)
    (img : BilinearInterpT K) (cam : CameraModel K) (mp : ModelParams K)
    (gp : GlobalParams K) (A : K × K) (nodata center_h right_h top_h : K)
    (col row demCols demRows g_errorCount : Nat) (px py refl : K)
    (hgrid : ¬(demCols - 1 ≤ col ∨ demRows - 1 ≤ row))
    (hc : center_h ≠ nodata) (hr : right_h ≠ nodata) (ht : top_h ≠ nodata)
    (hrefl : ComputeReflectance ops
      (criNormal ops geo col row center_h right_h top_h)
      (criBase geo col row center_h) mp gp = some refl)
    (hcam : cam (criBase geo col row center_h) = .ok (px, py)) :
    (computeReflectanceAndIntensity ops center_h right_h top_h col row
        demCols demRows geo nodata A mp gp img cam g_errorCount =
        (.ok refl (img.sample px py), g_errorCount) ↔
      (0 ≤ px ∧ px < (img.cols : K) - 1 ∧ 0 ≤ py ∧ py < (img.rows : K) - 1)) ∧
    ((px < 0 ∨ (img.cols : K) - 1 ≤ px ∨ py < 0 ∨ (img.rows : K) - 1 ≤ py) →
      computeReflectanceAndIntensity ops center_h right_h top_h col row
        demCols demRows geo nodata A mp gp img cam g_errorCount =
        (.fail refl 0, g_errorCount)) := by
  have hc' : ¬(center_h = nodata ∧ g_errorCount = 0) := fun hh => hc hh.1
  have hr' : ¬(right_h = nodata ∧ g_errorCount = 0) := fun hh => hr hh.1
  have ht' : ¬(top_h = nodata ∧ g_errorCount = 0) := fun hh => ht hh.1
  simp only [computeReflectanceAndIntensity, if_neg hgrid, if_neg hc',
    if_neg hr', if_neg ht', hrefl, hcam]
  constructor
  · constructor
    · intro h
      by_cases h1 : px < 0 ∨ (img.cols : K) - 1 ≤ px
      · rw [if_pos h1] at h
        exact absurd h (by simp)
      · by_cases h2 : py < 0 ∨ (img.rows : K) - 1 ≤ py
        · rw [if_neg h1, if_pos h2] at h
          exact absurd h (by simp)
        · push_neg at h1 h2
          exact ⟨h1.1, h1.2, h2.1, h2.2⟩
    · intro hin
      rw [if_neg (not_or.mpr ⟨not_lt.mpr hin.1, not_le.mpr hin.2.1⟩),
        if_neg (not_or.mpr ⟨not_lt.mpr hin.2.2.1, not_le.mpr hin.2.2.2⟩)]
  · intro hout
    rcases hout with h | h | h | h
    · rw [if_pos (Or.inl h)]
    · rw [if_pos (Or.inr h)]
    · by_cases h1 : px < 0 ∨ (img.cols : K) - 1 ≤ px
      · rw [if_pos h1]
      · rw [if_neg h1, if_pos (Or.inl h)]
    · by_cases h1 : px < 0 ∨ (img.cols : K) - 1 ≤ px
      · rw [if_pos h1]
      · rw [if_neg h1, if_pos (Or.inr h)]

/-- C8 witness: the amended theorem applied on a concrete in-range
projection at pixel `(1, 1)` of the 4x4 test image. -/
theorem C8_witness :
    ¬((4 : Nat) - 1 ≤ 0 ∨ (4 : Nat) - 1 ≤ 0) ∧
    ((1000 : ℚ) ≠ -32768) ∧
    ComputeReflectance testOps (criNormal testOps testGeo 0 0 1000 1000 1000)
      (criBase testGeo 0 0 1000) testMp testGpNoRefl = some 1 ∧
    testCamera (criBase testGeo 0 0 1000) = .ok (1, 1) ∧
    ((computeReflectanceAndIntensity testOps 1000 1000 1000 0 0 4 4 testGeo
        (-32768) (1, 0) testMp testGpNoRefl testImage testCamera 0 =
        (.ok 1 (testImage.sample 1 1), 0) ↔
      (0 ≤ (1 : ℚ) ∧ (1 : ℚ) < (testImage.cols : ℚ) - 1 ∧
        0 ≤ (1 : ℚ) ∧ (1 : ℚ) < (testImage.rows : ℚ) - 1)) ∧
    (((1 : ℚ) < 0 ∨ (testImage.cols : ℚ) - 1 ≤ 1 ∨
        (1 : ℚ) < 0 ∨ (testImage.rows : ℚ) - 1 ≤ 1) →
      computeReflectanceAndIntensity testOps 1000 1000 1000 0 0 4 4 testGeo
        (-32768) (1, 0) testMp testGpNoRefl testImage testCamera 0 =
        (.fail 1 0, 0))) :=
  ⟨by decide,
   by norm_num,
   by norm_num [ComputeReflectance, testGpNoRefl, NO_REFL, LUNAR_LAMBERT, LAMBERT],
   rfl,
   C8_pixel_bounds testOps testGeo testImage testCamera testMp testGpNoRefl
     (1, 0) (-32768) 1000 1000 1000 0 0 4 4 0 1 1 1
     (by decide)
     (by norm_num)
     (by norm_num)
     (by norm_num)
     (by norm_num [ComputeReflectance, testGpNoRefl, NO_REFL, LUNAR_LAMBERT, LAMBERT])
     rfl⟩

end Claims

section PinHelpers

/-- Cells pinned through the `col == 1` (left boundary) branch. -/
theorem pinned_left_col {ncols nrows : Nat} (row r : Nat)
    (h1 : 1 ≤ row) (h2 : row ≤ nrows - 2) (h3 : 1 ≤ ncols - 2)
    (hr : r = row - 1 ∨ r = row ∨ r = row + 1) :
    (0, r) ∈ pinnedCells ncols nrows := by
  apply Finset.mem_biUnion.mpr
  refine ⟨(1, row), ?_, ?_⟩
  · rw [Finset.mem_product]
    exact ⟨Finset.mem_Icc.mpr ⟨le_rfl, h3⟩, Finset.mem_Icc.mpr ⟨h1, h2⟩⟩
  · unfold boundaryPins
    apply Finset.mem_union_left
    apply Finset.mem_union_left
    apply Finset.mem_union_left
    rw [if_pos rfl]
    simp only [Finset.mem_insert, Finset.mem_singleton, Prod.mk.injEq,
      true_and, and_true]
    rcases hr with h | h | h <;> omega

/-- Cells pinned through the `row == 1` (bottom boundary) branch. -/
theorem pinned_bottom_row {ncols nrows : Nat} (col c : Nat)
    (h1 : 1 ≤ col) (h2 : col ≤ ncols - 2) (h3 : 1 ≤ nrows - 2)
    (hc : c = col - 1 ∨ c = col ∨ c = col + 1) :
    (c, 0) ∈ pinnedCells ncols nrows := by
  apply Finset.mem_biUnion.mpr
  refine ⟨(col, 1), ?_, ?_⟩
  · rw [Finset.mem_product]
    exact ⟨Finset.mem_Icc.mpr ⟨h1, h2⟩, Finset.mem_Icc.mpr ⟨le_rfl, h3⟩⟩
  · unfold boundaryPins
    apply Finset.mem_union_left
    apply Finset.mem_union_left
    apply Finset.mem_union_right
    rw [if_pos rfl]
    simp only [Finset.mem_insert, Finset.mem_singleton, Prod.mk.injEq,
      true_and, and_true]
    rcases hc with h | h | h <;> omega

/-- Cells pinned through the `col == ncols-2` (right boundary) branch. -/
theorem pinned_right_col {ncols nrows : Nat} (row r : Nat)
    (h1 : 1 ≤ row) (h2 : row ≤ nrows - 2) (h3 : 1 ≤ ncols - 2)
    (hr : r = row - 1 ∨ r = row ∨ r = row + 1) :
    (ncols - 2 + 1, r) ∈ pinnedCells ncols nrows := by
  apply Finset.mem_biUnion.mpr
  refine ⟨(ncols - 2, row), ?_, ?_⟩
  · rw [Finset.mem_product]
    exact ⟨Finset.mem_Icc.mpr ⟨h3, le_rfl⟩, Finset.mem_Icc.mpr ⟨h1, h2⟩⟩
  · unfold boundaryPins
    apply Finset.mem_union_left
    apply Finset.mem_union_right
    rw [if_pos rfl]
    simp only [Finset.mem_insert, Finset.mem_singleton, Prod.mk.injEq,
      true_and, and_true]
    rcases hr with h | h | h <;> omega

/-- Cells pinned through the `row == nrows-2` (top boundary) branch. -/
theorem pinned_top_row {ncols nrows : Nat} (col c : Nat)
    (h1 : 1 ≤ col) (h2 : col ≤ ncols - 2) (h3 : 1 ≤ nrows - 2)
    (hc : c = col - 1 ∨ c = col ∨ c = col + 1) :
    (c, nrows - 2 + 1) ∈ pinnedCells ncols nrows := by
  apply Finset.mem_biUnion.mpr
  refine ⟨(col, nrows - 2), ?_, ?_⟩
  · rw [Finset.mem_product]
    exact ⟨Finset.mem_Icc.mpr ⟨h1, h2⟩, Finset.mem_Icc.mpr ⟨h3, le_rfl⟩⟩
  · unfold boundaryPins
    apply Finset.mem_union_right
    rw [if_pos rfl]
    simp only [Finset.mem_insert, Finset.mem_singleton, Prod.mk.injEq,
      true_and, and_true]
    rcases hc with h | h | h <;> omega

end PinHelpers

section Claims2

variable {K : Type} [LinearOrderedField K]

/-- C7: on a grid with at least 3 columns and rows, the assembly loop
marks exactly the outermost ring immutable: a cell `(c, r)` of the
grid is pinned iff `c = 0`, `r = 0`, `c = ncols-1` or `r = nrows-1`. -/
theorem C7_boundary_pinning (ncols nrows c r : Nat)
    (hcols : 3 ≤ ncols) (hrows : 3 ≤ nrows)
    (hc : c < ncols) (hr : r < nrows) :
    (c, r) ∈ pinnedCells ncols nrows ↔
      (c = 0 ∨ r = 0 ∨ c = ncols - 1 ∨ r = nrows - 1) := by
  constructor
  · intro h
    obtain ⟨p, hp, hmem⟩ := Finset.mem_biUnion.mp h
    obtain ⟨col, row⟩ := p
    rw [Finset.mem_product] at hp
    simp only [Finset.mem_Icc] at hp
    simp only [boundaryPins, Finset.mem_union] at hmem
    rcases hmem with ((hm | hm) | hm) | hm <;>
      split_ifs at hm with hcond <;>
      first
        | exact absurd hm (Finset.not_mem_empty _)
        | (simp only [Finset.mem_insert, Finset.mem_singleton,
            Prod.mk.injEq] at hm
           omega)
  · intro h
    rcases h with h0 | h0 | h0 | h0
    · subst h0
      by_cases hz : r = 0
      · exact pinned_left_col 1 r le_rfl (by omega) (by omega) (by omega)
      · by_cases htp : r = nrows - 1
        · exact pinned_left_col (nrows - 2) r (by omega) le_rfl (by omega)
            (by omega)
        · exact pinned_left_col r r (by omega) (by omega) (by omega)
            (by omega)
    · subst h0
      by_cases hz : c = 0
      · exact pinned_bottom_row 1 c le_rfl (by omega) (by omega) (by omega)
      · by_cases htp : c = ncols - 1
        · exact pinned_bottom_row (ncols - 2) c (by omega) le_rfl (by omega)
            (by omega)
        · exact pinned_bottom_row c c (by omega) (by omega) (by omega)
            (by omega)
    · have hcr : c = ncols - 2 + 1 := by omega
      subst hcr
      by_cases hz : r = 0
      · exact pinned_right_col 1 r le_rfl (by omega) (by omega) (by omega)
      · by_cases htp : r = nrows - 1
        · exact pinned_right_col (nrows - 2) r (by omega) le_rfl (by omega)
            (by omega)
        · exact pinned_right_col r r (by omega) (by omega) (by omega)
            (by omega)
    · have hrr : r = nrows - 2 + 1 := by omega
      subst hrr
      by_cases hz : c = 0
      · exact pinned_top_row 1 c le_rfl (by omega) (by omega) (by omega)
      · by_cases htp : c = ncols - 1
        · exact pinned_top_row (ncols - 2) c (by omega) le_rfl (by omega)
            (by omega)
        · exact pinned_top_row c c (by omega) (by omega) (by omega)
            (by omega)

/-- C7 witness: the theorem applied on a 5x5 grid at the left-edge
cell `(0, 3)`. -/
theorem C7_witness :
    3 ≤ 5 ∧ 3 ≤ 5 ∧ 0 < 5 ∧ 3 < 5 ∧
    ((0, 3) ∈ pinnedCells 5 5 ↔
      (0 = 0 ∨ 3 = 0 ∨ 0 = 5 - 1 ∨ 3 = 5 - 1)) :=
  ⟨by norm_num, by norm_num, by norm_num, by norm_num,
   C7_boundary_pinning 5 5 0 3 (by norm_num) (by norm_num) (by norm_num)
     (by norm_num)⟩

end Claims2

section StatsHelpers

variable {K : Type} [LinearOrderedField K]

/-- Spec-side description of the pixels that `compute_image_stats`
accumulates: the valid (non-skipped) pixel values, in iteration
order. -/
def validPixelValues (I : StatsImage K) : List K :=
  (pixelSeq I).filterMap id

/-- The accumulation loop computes the sum, the sum of squares, and
the count of the valid pixels. -/
theorem statsFold_eq (l : List (Option K)) (a b c : K) :
    statsFold l (a, b, c) =
      (a + (l.filterMap id).sum,
       b + ((l.filterMap id).map fun v => v * v).sum,
       c + ((l.filterMap id).length : K)) := by
  induction l generalizing a b c with
  | nil => simp [statsFold]
  | cons hd tl ih =>
    cases hd with
    | none =>
      simp only [statsFold, List.foldl_cons, List.filterMap_cons, id_eq]
      exact ih a b c
    | some v =>
      simp only [statsFold, List.foldl_cons] at ih ⊢
      rw [ih]
      simp only [List.filterMap_cons, id_eq, List.sum_cons, List.map_cons,
        List.length_cons, Prod.mk.injEq]
      push_cast
      refine ⟨by ring, by ring, by ring⟩

/-- `compute_image_stats` in closed form: the mean is the sum of the
valid pixels over their count, and the standard deviation is
`sqrt(sum2/count - mean^2)`, whenever at least one pixel is valid. -/
theorem compute_image_stats_eq (ops : MathOps K) (X : StatsImage K)
    (h : (validPixelValues X).length ≠ 0) :
    compute_image_stats ops X =
      ((validPixelValues X).sum / ((validPixelValues X).length : K),
       ops.sqrt (((validPixelValues X).map fun v => v * v).sum /
          ((validPixelValues X).length : K) -
        (validPixelValues X).sum / ((validPixelValues X).length : K) *
          ((validPixelValues X).sum / ((validPixelValues X).length : K)))) := by
  unfold compute_image_stats validPixelValues at *
  rw [statsFold_eq]
  simp only [zero_add]
  rw [if_pos (by exact_mod_cast Nat.pos_of_ne_zero h)]

end StatsHelpers

section Claims3

variable {K : Type} [LinearOrderedField K]

/-- C9: the one-time affine estimation sets
`A0 = intensityStdev / reflectanceStdev` and
`A1 = intensityMean - A0 * reflectanceMean`, where the mean and the
standard deviation of each image are computed by the accumulation loop
over its valid pixels (for the `ImageView<double>` images of the
source every pixel is valid).  The division by `reflectanceStdev` is
unguarded: no branch tests it. -/
theorem C9_affine_estimation (ops : MathOps K) (R I : StatsImage K)
    (hR : (validPixelValues R).length ≠ 0)
    (hI : (validPixelValues I).length ≠ 0) :
    estimateAffineParams ops R I =
      (let imean := (validPixelValues I).sum / ((validPixelValues I).length : K)
       let istdev := ops.sqrt (((validPixelValues I).map fun v => v * v).sum /
         ((validPixelValues I).length : K) - imean * imean)
       let rmean := (validPixelValues R).sum / ((validPixelValues R).length : K)
       let rstdev := ops.sqrt (((validPixelValues R).map fun v => v * v).sum /
         ((validPixelValues R).length : K) - rmean * rmean)
       (istdev / rstdev, imean - istdev / rstdev * rmean)) := by
  unfold estimateAffineParams
  rw [compute_image_stats_eq ops I hI, compute_image_stats_eq ops R hR]

/-- Test 1x2 intensity image with pixel values 1 and 3. -/
def testStatsI : StatsImage ℚ := ⟨1, 2, fun _ r => some ((r : ℚ) * 2 + 1)⟩

/-- Test 1x2 reflectance image with pixel values 0 and 2. -/
def testStatsR : StatsImage ℚ := ⟨1, 2, fun _ r => some ((r : ℚ) * 2)⟩

/-- C9 witness: the theorem applied to two concrete 1x2 images. -/
theorem C9_witness :
    (validPixelValues testStatsR).length ≠ 0 ∧
    (validPixelValues testStatsI).length ≠ 0 ∧
    estimateAffineParams testOps testStatsR testStatsI =
      (let imean := (validPixelValues testStatsI).sum /
         ((validPixelValues testStatsI).length : ℚ)
       let istdev := testOps.sqrt
         (((validPixelValues testStatsI).map fun v => v * v).sum /
           ((validPixelValues testStatsI).length : ℚ) - imean * imean)
       let rmean := (validPixelValues testStatsR).sum /
         ((validPixelValues testStatsR).length : ℚ)
       let rstdev := testOps.sqrt
         (((validPixelValues testStatsR).map fun v => v * v).sum /
           ((validPixelValues testStatsR).length : ℚ) - rmean * rmean)
       (istdev / rstdev, imean - istdev / rstdev * rmean)) :=
  ⟨by decide, by decide,
   C9_affine_estimation testOps testStatsR testStatsI (by decide) (by decide)⟩

end Claims3

section GridHelpers

variable {K : Type} [LinearOrderedField K]

/-- Inversion for a successful `Except` bind. -/
theorem except_bind_ok {α β : Type} (x : Except Unit α) (f : α → Except Unit β)
    (b : β) (h : (x >>= f) = .ok b) : ∃ a, x = .ok a ∧ f a = .ok b := by
  cases x with
  | error e => simp [Bind.bind, Except.bind] at h
  | ok a => exact ⟨a, rfl, by simpa [Bind.bind, Except.bind] using h⟩

/-- The cell list of the full-grid pass has no duplicates. -/
theorem gridCellList_nodup (C R : Nat) : (gridCellList C R).Nodup := by
  have h : gridCellList C R = List.range (C - 1) ×ˢ List.range (R - 1) := rfl
  rw [h]
  exact (List.nodup_range _).product (List.nodup_range _)

/-- Membership in the cell list of the full-grid pass. -/
theorem mem_gridCellList (C R c r : Nat) :
    (c, r) ∈ gridCellList C R ↔ (c < C - 1 ∧ r < R - 1) := by
  unfold gridCellList
  simp only [List.mem_flatMap, List.mem_map, List.mem_range, Prod.mk.injEq]
  constructor
  · rintro ⟨a, ha, b, hb, h1, h2⟩
    subst h1; subst h2
    exact ⟨ha, hb⟩
  · rintro ⟨h1, h2⟩
    exact ⟨c, h1, r, h2, rfl, rfl⟩

variable (ops : MathOps K) (dem : Nat → Nat → K) (demCols demRows : Nat)
    (geo : GeoReference K) (nodata_val : K) (A : K × K) (mp : ModelParams K)
    (gp : GlobalParams K) (image : BilinearInterpT K) (camera : CameraModel K)

/-- A successful grid iteration comes from an `ok`/`fail` per-cell
outcome and stores both outputs at its cell. -/
theorem gridStep_ok_inv (st : GridState K) (cell : Nat × Nat)
    (st' : GridState K)
    (h : gridStep ops dem demCols demRows geo nodata_val A mp gp image
      camera st cell = .ok st') :
    ∃ refl intens n,
      (computeReflectanceAndIntensity ops (dem cell.1 cell.2)
          (dem (cell.1 + 1) cell.2) (dem cell.1 (cell.2 + 1)) cell.1 cell.2
          demCols demRows geo nodata_val A mp gp image camera st.2.2 =
          (.ok refl intens, n) ∨
        computeReflectanceAndIntensity ops (dem cell.1 cell.2)
          (dem (cell.1 + 1) cell.2) (dem cell.1 (cell.2 + 1)) cell.1 cell.2
          demCols demRows geo nodata_val A mp gp image camera st.2.2 =
          (.fail refl intens, n)) ∧
      st' = (Function.update st.1 cell refl,


             Function.update st.2.1 cell intens, n) := by
  simp only [gridStep] at h
  rcases hc : computeReflectanceAndIntensity ops (dem cell.1 cell.2)
      (dem (cell.1 + 1) cell.2) (dem cell.1 (cell.2 + 1)) cell.1 cell.2
      demCols demRows geo nodata_val A mp gp image camera st.2.2 with ⟨out, n⟩
  rw [hc] at h
  cases out with
  | ok refl intens =>
      simp only at h
      exact ⟨refl, intens, n, Or.inl rfl, by injection h with h'; exact h'.symm⟩
  | fail refl intens =>
      simp only at h
      exact ⟨refl, intens, n, Or.inr rfl, by injection h with h'; exact h'.symm⟩
  | exn r => exact absurd h (by simp)
  | fatal => exact absurd h (by simp)

/-- Folding the grid pass over cells that avoid `p` leaves the images
unchanged at `p`. -/
theorem gridFold_preserve (l : List (Nat × Nat)) (p : Nat × Nat) (hp : p ∉ l)
    (st st' : GridState K)
    (h : l.foldlM (gridStep ops dem demCols demRows geo nodata_val A mp gp
      image camera) st = .ok st') :
    st'.1 p = st.1 p ∧ st'.2.1 p = st.2.1 p := by
  induction l generalizing st with
  | nil =>
      rw [List.foldlM_nil] at h
      have h' : Except.ok (ε := Unit) st = .ok st' := h
      injection h' with h''
      rw [← h'']
      exact ⟨rfl, rfl⟩
  | cons a tl ih =>
      rw [List.foldlM_cons] at h
      obtain ⟨st₁, hstep, hrest⟩ := except_bind_ok _ _ _ h
      have hpa : p ≠ a := fun he => hp (he ▸ List.mem_cons_self a tl)
      have hptl : p ∉ tl := fun hm => hp (List.mem_cons_of_mem a hm)
      obtain ⟨refl, intens, n, _, hst₁⟩ :=
        gridStep_ok_inv ops dem demCols demRows geo nodata_val A mp gp image
          camera st a st₁ hstep
      obtain ⟨h1, h2⟩ := ih hptl st₁ hrest
      rw [hst₁] at h1 h2
      constructor
      · rw [h1]
        exact Function.update_noteq hpa _ _
      · rw [h2]
        exact Function.update_noteq hpa _ _

/-- After a completed grid pass over a duplicate-free cell list
containing `p`, the images hold at `p` exactly the two outputs of a
per-cell call at `p` (for the error-counter value the pass had reached
at that cell).  This is regardless of whether that call succeeded or
failed. -/
theorem gridFold_written (l : List (Nat × Nat)) (hnd : l.Nodup)
    (p : Nat × Nat) (hp : p ∈ l) (st st' : GridState K)
    (h : l.foldlM (gridStep ops dem demCols demRows geo nodata_val A mp gp
      image camera) st = .ok st') :
    ∃ n n' refl intens,
      (computeReflectanceAndIntensity ops (dem p.1 p.2) (dem (p.1 + 1) p.2)
          (dem p.1 (p.2 + 1)) p.1 p.2 demCols demRows geo nodata_val A mp gp
          image camera n = (.ok refl intens, n') ∨
        computeReflectanceAndIntensity ops (dem p.1 p.2) (dem (p.1 + 1) p.2)
          (dem p.1 (p.2 + 1)) p.1 p.2 demCols demRows geo nodata_val A mp gp
          image camera n = (.fail refl intens, n')) ∧
      st'.1 p = refl ∧ st'.2.1 p = intens := by
  induction l generalizing st with
  | nil => exact absurd hp (List.not_mem_nil p)
  | cons a tl ih =>
      rw [List.foldlM_cons] at h
      obtain ⟨st₁, hstep, hrest⟩ := except_bind_ok _ _ _ h
      by_cases hpa : p = a
      · subst hpa
        obtain ⟨refl, intens, n, hcri, hst₁⟩ :=
          gridStep_ok_inv ops dem demCols demRows geo nodata_val A mp gp image
            camera st p st₁ hstep
        have hptl : p ∉ tl := (List.nodup_cons.mp hnd).1
        obtain ⟨h1, h2⟩ := gridFold_preserve ops dem demCols demRows geo
          nodata_val A mp gp image camera tl p hptl st₁ st' hrest
        rw [hst₁] at h1 h2
        refine ⟨st.2.2, n, refl, intens, hcri, ?_, ?_⟩
        · rw [h1]
          exact Function.update_same _ _ _
        · rw [h2]
          exact Function.update_same _ _ _
      · have hptl : p ∈ tl := (List.mem_cons.mp hp).resolve_left hpa
        exact ih (List.nodup_cons.mp hnd).2 hptl st₁ hrest

end GridHelpers

section Claims4

variable {K : Type} [LinearOrderedField K]

/-- C10 counterexample: on the projected-pixel-out-of-range failure
path the reflectance output is not reset to 0: with the no-reflectance
model (reflectance 1) and a camera projecting to `(-1, 0)`, the call
fails but returns reflectance 1, not 0. -/
theorem C10_counterexample :
    computeReflectanceAndIntensity testOps 1000 1000 1000 0 0 4 4 testGeo
      (-32768) (1, 0) testMp testGpNoRefl testImage
      (fun _ => .ok (-1, 0)) 0 =
      (.fail 1 0, 0) ∧ (1 : ℚ) ≠ 0 := by
  constructor
  · norm_num [computeReflectanceAndIntensity, criBase, criNormal,
      ComputeReflectance, NO_REFL, LUNAR_LAMBERT, LAMBERT, normalize3, sub3,
      neg3, cross3, dot3, testOps, testGeo, testMp, testGpNoRefl, testImage]
  · norm_num

/-- C10 (amended): on the out-of-grid and no-data failure paths both
outputs are 0 (with the counter bumped on a firing no-data guard); on
the projected-pixel-out-of-range path the intensity output is 0 but
the reflectance output keeps the computed reflectance; and the
full-grid pass stores the outputs of every per-cell call — successful
or failed — in the images at that cell, so failed cells contribute
their outputs to the statistics as ordinary samples rather than being
excluded. -/
theorem C10_failure_outputs (ops : MathOps K) (geo : GeoReference K)
    (img : BilinearInterpT K) (cam : CameraModel K) (mp : ModelParams K)
    (gp : GlobalParams K) (A : K × K) (nodata center_h right_h top_h : K)
    (col row demCols demRows g_errorCount : Nat) (px py refl : K)
    (dem : Nat → Nat → K) (st : GridState K) (c r errCount₀ : Nat) :
    ((demCols - 1 ≤ col ∨ demRows - 1 ≤ row) →
      computeReflectanceAndIntensity ops center_h right_h top_h col row
        demCols demRows geo nodata A mp gp img cam g_errorCount =
        (.fail 0 0, g_errorCount)) ∧
    (¬(demCols - 1 ≤ col ∨ demRows - 1 ≤ row) → g_errorCount = 0 →
      (center_h = nodata →
        computeReflectanceAndIntensity ops center_h right_h top_h col row
          demCols demRows geo nodata A mp gp img cam g_errorCount =
          (.fail 0 0, g_errorCount + 1)) ∧
      (center_h ≠ nodata → right_h = nodata →
        computeReflectanceAndIntensity ops center_h right_h top_h col row
          demCols demRows geo nodata A mp gp img cam g_errorCount =
          (.fail 0 0, g_errorCount + 1)) ∧
      (center_h ≠ nodata → right_h ≠ nodata → top_h = nodata →
        computeReflectanceAndIntensity ops center_h right_h top_h col row
          demCols demRows geo nodata A mp gp img cam g_errorCount =
          (.fail 0 0, g_errorCount + 1))) ∧
    (¬(demCols - 1 ≤ col ∨ demRows - 1 ≤ row) →
      center_h ≠ nodata → right_h ≠ nodata → top_h ≠ nodata →
      ComputeReflectance ops (criNormal ops geo col row center_h right_h top_h)
        (criBase geo col row center_h) mp gp = some refl →
      cam (criBase geo col row center_h) = .ok (px, py) →
      (px < 0 ∨ (img.cols : K) - 1 ≤ px ∨ py < 0 ∨ (img.rows : K) - 1 ≤ py) →
      computeReflectanceAndIntensity ops center_h right_h top_h col row
        demCols demRows geo nodata A mp gp img cam g_errorCount =
        (.fail refl 0, g_errorCount)) ∧
    (computeReflectanceAndIntensityGrid ops dem demCols demRows geo nodata A
        mp gp img cam errCount₀ = .ok st →
      c < demCols - 1 → r < demRows - 1 →
      ∃ n n' refl2 intens2,
        (computeReflectanceAndIntensity ops (dem c r) (dem (c + 1) r)
            (dem c (r + 1)) c r demCols demRows geo nodata A mp gp img cam n =
            (.ok refl2 intens2, n') ∨
          computeReflectanceAndIntensity ops (dem c r) (dem (c + 1) r)
            (dem c (r + 1)) c r demCols demRows geo nodata A mp gp img cam n =
            (.fail refl2 intens2, n')) ∧
        st.1 (c, r) = refl2 ∧ st.2.1 (c, r) = intens2) := by
  refine ⟨?_, ?_, ?_, ?_⟩
  · intro h
    rw [computeReflectanceAndIntensity, if_pos h]
  · intro hgrid he
    refine ⟨fun hcen => ?_, fun hcen hrh => ?_, fun hcen hrh htp => ?_⟩
    · rw [computeReflectanceAndIntensity, if_neg hgrid,
        if_pos (show center_h = nodata ∧ g_errorCount = 0 from ⟨hcen, he⟩)]
    · rw [computeReflectanceAndIntensity, if_neg hgrid,
        if_neg (show ¬(center_h = nodata ∧ g_errorCount = 0) from
          fun hh => hcen hh.1),
        if_pos (show right_h = nodata ∧ g_errorCount = 0 from ⟨hrh, he⟩)]
    · rw [computeReflectanceAndIntensity, if_neg hgrid,
        if_neg (show ¬(center_h = nodata ∧ g_errorCount = 0) from
          fun hh => hcen hh.1),
        if_neg (show ¬(right_h = nodata ∧ g_errorCount = 0) from
          fun hh => hrh hh.1),
        if_pos (show top_h = nodata ∧ g_errorCount = 0 from ⟨htp, he⟩)]
  · intro hgrid hcen hrh htp hrefl hcam hout
    have hc' : ¬(center_h = nodata ∧ g_errorCount = 0) := fun hh => hcen hh.1
    have hr' : ¬(right_h = nodata ∧ g_errorCount = 0) := fun hh => hrh hh.1
    have ht' : ¬(top_h = nodata ∧ g_errorCount = 0) := fun hh => htp hh.1
    simp only [computeReflectanceAndIntensity, if_neg hgrid, if_neg hc',
      if_neg hr', if_neg ht', hrefl, hcam]
    rcases hout with h | h | h | h
    · rw [if_pos (Or.inl h)]
    · rw [if_pos (Or.inr h)]
    · by_cases h1 : px < 0 ∨ (img.cols : K) - 1 ≤ px
      · rw [if_pos h1]
      · rw [if_neg h1, if_pos (Or.inl h)]
    · by_cases h1 : px < 0 ∨ (img.cols : K) - 1 ≤ px
      · rw [if_pos h1]
      · rw [if_neg h1, if_pos (Or.inr h)]
  · intro hgrid hc hr
    unfold computeReflectanceAndIntensityGrid at hgrid
    exact gridFold_written ops dem demCols demRows geo nodata A mp gp img cam
      (gridCellList demCols demRows) (gridCellList_nodup _ _) (c, r)
      ((mem_gridCellList _ _ _ _).mpr ⟨hc, hr⟩) _ st hgrid

/-- C10 witness: the theorem's out-of-grid conjunct applied at a
column index beyond the DEM. -/
theorem C10_witness :
    ((4 : Nat) - 1 ≤ 5 ∨ (4 : Nat) - 1 ≤ 0) ∧
    computeReflectanceAndIntensity testOps 1000 1000 1000 5 0 4 4 testGeo
      (-32768) (1, 0) testMp testGpNoRefl testImage testCamera 0 =
      (.fail 0 0, 0) :=
  ⟨Or.inl (by decide),
   (C10_failure_outputs testOps testGeo testImage testCamera testMp
      testGpNoRefl (1, 0) (-32768) 1000 1000 1000 5 0 4 4 0 0 0 0
      (fun _ _ => 0) ((fun _ => 0), (fun _ => 0), 0) 0 0 0).1
     (Or.inl (by decide))⟩

end Claims4

